import Mathlib

/-! Shallow embedding of the ICMPv6 input handler from
net/icmpv6/icmpv6_input.c, together with proofs of its input-handling
properties.  The build is modelled with CONFIG_NET_STATISTICS,
CONFIG_NET_ICMPv6v6_PING, CONFIG_NET_ETHERNET and CONFIG_NET_MULTILINK
enabled; the Checksum Engine and the Echo Waiter Registry dispatch are
treated as parameters (their code is outside this translation unit). -/

/-! Protocol constants.  The numeric type codes come from the wire format
described in the design document (135 = Neighbor Solicitation, 128 = Echo
Request, 129 = Echo Reply); the header file defining the C macros is not
part of this translation unit. -/

def ICMPv6_ECHO_REQUEST : Nat := 128

def ICMPv6_ECHO_REPLY : Nat := 129

def ICMPv6_NEIGHBOR_SOLICIT : Nat := 135

def ICMPv6_NEIGHBOR_ADVERTISE : Nat := 136

def ICMPv6_OPTION_SOURCE_LINK_ADDRESS : Nat := 1

def ICMPv6_OPTION_TARGET_LINK_ADDRESS : Nat := 2

/-- Solicited flag bit of the neighbor advertisement flags byte. -/
def ICMPv6_FLAG_S : Nat := 64

/-- Modelled from the spec: the neutral unclaimed signal value handed to
the Echo Waiter Registry dispatch chain (a devif event flag defined
outside this translation unit; the handler only compares it for identity,
so its numeric value is immaterial). -/
def ICMPv6_ECHOREPLY : Nat := 16

def IFHWADDRLEN : Nat := 6

def ETHER_ADDR_LEN : Nat := 6

/-- The icmpv6_iphdr_s view of the packet buffer: the IPv6 header fields
the handler touches (payload length, source and destination addresses,
as lists of 16-bit words) followed by the ICMPv6 message.  The C struct
overlays the neighbor-discovery fields (flags, reserved bytes, target
address, options) and the echo fields (identifier, sequence, payload) on
the same byte region; the handler never writes one view and reads the
other, so the two views are modelled as separate components. -/
structure Icmpv6Iphdr where
  len : Nat
  srcipaddr : List Nat
  destipaddr : List Nat
  type : Nat
  code : Nat
  icmpv6chksum : Nat
  flags : Nat
  reserved1 : Nat
  reserved2 : Nat
  reserved3 : Nat
  icmpv6data : List Nat
  options : List Nat
  echoId : Nat
  echoSeqno : Nat
  echoPayload : List Nat

/-- The slice of net_driver_s the handler reads or writes: the configured
IPv6 address (16-bit words), the hardware address bytes, the declared
buffer length d_len, the IPv6 bit of d_flags, the link-layer type test
(d_lltype == NET_LL_ETHERNET) and the Ethernet header address fields of
d_buf. -/
structure NetDriver where
  d_ipv6addr : List Nat
  d_mac : List Nat
  d_len : Nat
  d_flags_ipv6 : Bool
  d_lltype_ethernet : Bool
  eth_src : List Nat
  eth_dest : List Nat

/-- The g_netstats counters the handler touches. -/
structure NetStats where
  icmpv6_recv : Nat
  icmpv6_sent : Nat
  icmpv6_typeerr : Nat
  icmpv6_drop : Nat
  ip_sent : Nat

/-- State visible to icmpv6_input on entry: the device, the packet view,
the statistics counters and whether g_echocallback is non-null. -/
structure InState where
  dev : NetDriver
  icmp : Icmpv6Iphdr
  stats : NetStats
  g_echocallback : Bool

/-- State on exit, extended with the externally observable side effects:
the Neighbor Cache upsert calls issued (IPv6 address, hardware address)
and the signal values passed to the Echo Waiter Registry chain. -/
structure OutState where
  dev : NetDriver
  icmp : Icmpv6Iphdr
  stats : NetStats
  upserts : List (List Nat × List Nat)
  dispatches : List Nat

/-- IFF_SET_IPv6(dev->d_flags). -/
def setIpv6 (dev : NetDriver) : NetDriver :=
  { dev with d_flags_ipv6 := true }

/-- g_netstats.icmpv6.recv++ at function entry. -/
def bumpRecv (st : NetStats) : NetStats :=
  { st with icmpv6_recv := st.icmpv6_recv + 1 }

/-- The normal exit: g_netstats.icmpv6.sent++ and g_netstats.ip.sent++,
d_len untouched. -/
def emitPath (dev : NetDriver) (icmp : Icmpv6Iphdr) (st : NetStats)
    (ups : List (List Nat × List Nat)) (dis : List Nat) : OutState :=
  { dev := dev, icmp := icmp,
    stats := { st with icmpv6_sent := st.icmpv6_sent + 1,
                       ip_sent := st.ip_sent + 1 },
    upserts := ups, dispatches := dis }

/-- The drop label: g_netstats.icmpv6.drop++ and dev->d_len = 0. -/
def dropPath (dev : NetDriver) (icmp : Icmpv6Iphdr) (st : NetStats)
    (ups : List (List Nat × List Nat)) (dis : List Nat) : OutState :=
  { dev := { dev with d_len := 0 }, icmp := icmp,
    stats := { st with icmpv6_drop := st.icmpv6_drop + 1 },
    upserts := ups, dispatches := dis }

/-- The typeerr label: g_netstats.icmpv6.typeerr++, then fall through to
the drop label. -/
def typeerrPath (dev : NetDriver) (icmp : Icmpv6Iphdr) (st : NetStats)
    (ups : List (List Nat × List Nat)) (dis : List Nat) : OutState :=
  dropPath dev icmp
    { st with icmpv6_typeerr := st.icmpv6_typeerr + 1 } ups dis

/-- The conditional net_neighbor_add call of the solicitation branch:
if options[0] is the Source-Link-Layer option type, upsert the sender
address with the hardware-address bytes at options[2..7].  The C code
performs no bounds check on the option before reading those bytes. -/
def solicitUpserts (icmp : Icmpv6Iphdr) : List (List Nat × List Nat) :=
  if icmp.options.getD 0 0 = ICMPv6_OPTION_SOURCE_LINK_ADDRESS then
    [(icmp.srcipaddr, (icmp.options.drop 2).take IFHWADDRLEN)]
  else []

/-- uint16 bitwise complement, as applied to the Checksum Engine result. -/
def complement16 (n : Nat) : Nat := 65535 - n % 65536

/-- The in-place solicitation-to-advertisement rewrite: type, flags,
reserved bytes, destination := original source, source := own address,
first 8 option bytes := a Target-Link-Layer option with the device MAC,
then checksum := 0 followed by checksum := ~chksum(dev). -/
def neighborAdvertIcmp (dev : NetDriver)
    (chk : NetDriver → Icmpv6Iphdr → Nat) (icmp : Icmpv6Iphdr) : Icmpv6Iphdr :=
  let icmp1 := { icmp with
    type := ICMPv6_NEIGHBOR_ADVERTISE,
    flags := ICMPv6_FLAG_S,
    reserved1 := 0, reserved2 := 0, reserved3 := 0,
    destipaddr := icmp.srcipaddr,
    srcipaddr := dev.d_ipv6addr,
    options := ICMPv6_OPTION_TARGET_LINK_ADDRESS :: 1 ::
      (dev.d_mac.take IFHWADDRLEN ++ icmp.options.drop (2 + IFHWADDRLEN)),
    icmpv6chksum := 0 }
  { icmp1 with icmpv6chksum := complement16 (chk dev icmp1) }

/-- The in-place echo-request-to-reply rewrite: type := Reply,
destination := original source, source := own address, then
checksum := 0 followed by checksum := ~chksum(dev). -/
def echoRequestIcmp (dev : NetDriver)
    (chk : NetDriver → Icmpv6Iphdr → Nat) (icmp : Icmpv6Iphdr) : Icmpv6Iphdr :=
  let icmp1 := { icmp with
    type := ICMPv6_ECHO_REPLY,
    destipaddr := icmp.srcipaddr,
    srcipaddr := dev.d_ipv6addr,
    icmpv6chksum := 0 }
  { icmp1 with icmpv6chksum := complement16 (chk dev icmp1) }

/-- The Ethernet post-step, active when d_lltype is NET_LL_ETHERNET:
eth->dest := eth->src, then eth->src := dev->d_mac. -/
def ethSwap (dev : NetDriver) : NetDriver :=
  if dev.d_lltype_ethernet then
    { dev with eth_dest := dev.eth_src,
               eth_src := dev.d_mac.take ETHER_ADDR_LEN }
  else dev

/-- icmpv6_input, parametrised by the Checksum Engine result chk and the
Echo Waiter Registry dispatch (devif_callback_execute applied to
g_echocallback).  Mirrors the if/else-if chain and the typeerr/drop
labels of the C function. -/
def icmpv6_input (chk : NetDriver → Icmpv6Iphdr → Nat)
    (dispatch : NetDriver → Icmpv6Iphdr → Nat → Nat) (s : InState) : OutState :=
  if s.icmp.type = ICMPv6_NEIGHBOR_SOLICIT then
    if s.icmp.icmpv6data = s.dev.d_ipv6addr then
      emitPath (ethSwap (setIpv6 s.dev))
        (neighborAdvertIcmp (setIpv6 s.dev) chk s.icmp)
        (bumpRecv s.stats) (solicitUpserts s.icmp) []
    else
      dropPath (setIpv6 s.dev) s.icmp (bumpRecv s.stats) [] []
  else if s.icmp.type = ICMPv6_ECHO_REQUEST then
    emitPath (setIpv6 s.dev) (echoRequestIcmp (setIpv6 s.dev) chk s.icmp)
      (bumpRecv s.stats) [] []
  else if s.icmp.type = ICMPv6_ECHO_REPLY ∧ s.g_echocallback = true then
    if dispatch (setIpv6 s.dev) s.icmp ICMPv6_ECHOREPLY = ICMPv6_ECHOREPLY then
      dropPath (setIpv6 s.dev) s.icmp (bumpRecv s.stats) [] [ICMPv6_ECHOREPLY]
    else
      emitPath (setIpv6 s.dev) s.icmp (bumpRecv s.stats) [] [ICMPv6_ECHOREPLY]
  else
    typeerrPath (setIpv6 s.dev) s.icmp (bumpRecv s.stats) [] []

/-! Spec-modelled Checksum Engine.  The icmpv6_chksum function is not part
of this translation unit; the design document specifies it as the
ones-complement sum of the 16-bit words of the pseudo-header (source
address, destination address, payload length, next-header 58) followed by
the ICMPv6 message. -/

/-- Modelled from the spec: ones-complement 16-bit addition with
end-around carry, the primitive of the Checksum Engine. -/
def addc (a b : Nat) : Nat :=
  let s := a + b
  if 65536 ≤ s then s - 65535 else s

/-- Modelled from the spec: the ones-complement sum of a list of 16-bit
words. -/
def onesum (ws : List Nat) : Nat := ws.foldr addc 0

/-- The 16-bit words of pseudo-header plus echo message that precede the
checksum field: source address, destination address, payload length,
next-header 58, and the type/code word. -/
def echoWordsPre (icmp : Icmpv6Iphdr) : List Nat :=
  icmp.srcipaddr ++ icmp.destipaddr ++
    [icmp.len, 58, icmp.type * 256 + icmp.code]

/-- The 16-bit words that follow the checksum field in an echo message:
identifier, sequence number and payload words. -/
def echoWordsPost (icmp : Icmpv6Iphdr) : List Nat :=
  icmp.echoId :: icmp.echoSeqno :: icmp.echoPayload

/-- All 16-bit words of pseudo-header plus echo message, checksum field
included at its wire position. -/
def echoWords (icmp : Icmpv6Iphdr) : List Nat :=
  echoWordsPre icmp ++ icmp.icmpv6chksum :: echoWordsPost icmp

/-- Modelled from the spec: the Checksum Engine result for an echo
message, the ones-complement sum over pseudo-header plus message with the
checksum field as currently stored. -/
def specChksum (_dev : NetDriver) (icmp : Icmpv6Iphdr) : Nat :=
  onesum (echoWords icmp)

/-! Concrete sample states used by the closed evaluation theorems. -/

/-- A sample configured node address (8 sixteen-bit words). -/
def ownAddr : List Nat := [10, 20, 30, 40, 50, 60, 70, 80]

/-- A sample peer source address. -/
def peerAddr : List Nat := [1, 2, 3, 4, 5, 6, 7, 8]

/-- The sample node hardware address (6 bytes). -/
def ownMac : List Nat := [161, 162, 163, 164, 165, 166]

/-- A sample device configuration. -/
def sampleDev : NetDriver :=
  { d_ipv6addr := ownAddr, d_mac := ownMac, d_len := 64,
    d_flags_ipv6 := false, d_lltype_ethernet := true,
    eth_src := [2, 2, 2, 2, 2, 2], eth_dest := [3, 3, 3, 3, 3, 3] }

/-- All-zero statistics counters. -/
def sampleStats : NetStats :=
  { icmpv6_recv := 0, icmpv6_sent := 0, icmpv6_typeerr := 0,
    icmpv6_drop := 0, ip_sent := 0 }

/-- A sample inbound echo request from the peer. -/
def sampleEchoReq : Icmpv6Iphdr :=
  { len := 12, srcipaddr := peerAddr, destipaddr := ownAddr,
    type := ICMPv6_ECHO_REQUEST, code := 0, icmpv6chksum := 77,
    flags := 0, reserved1 := 0, reserved2 := 0, reserved3 := 0,
    icmpv6data := [0, 0, 0, 0, 0, 0, 0, 0], options := [],
    echoId := 4660, echoSeqno := 2, echoPayload := [257, 514] }

/-- Assemble an input state from a packet, the registry flag and the
sample device and counters. -/
def mkIn (icmp : Icmpv6Iphdr) (g : Bool) : InState :=
  { dev := sampleDev, icmp := icmp, stats := sampleStats,
    g_echocallback := g }

/-- A solicitation for the node address whose first option byte declares
a Source-Link-Layer option with length byte 17 (136 declared bytes) while
only 2 option bytes are present in the buffer. -/
def icmpBadOption : Icmpv6Iphdr :=
  { sampleEchoReq with
    type := ICMPv6_NEIGHBOR_SOLICIT,
    icmpv6data := ownAddr,
    options := [1, 17] }

/-- A solicitation for the node address with a single well-formed
Source-Link-Layer option (8 bytes). -/
def icmpGoodSolicit : Icmpv6Iphdr :=
  { sampleEchoReq with
    type := ICMPv6_NEIGHBOR_SOLICIT,
    icmpv6data := ownAddr,
    options := [1, 1, 71, 72, 73, 74, 75, 76] }

/-- A solicitation for the node address with a well-formed
Source-Link-Layer option followed by a second 8-byte option. -/
def icmpTwoOptSolicit : Icmpv6Iphdr :=
  { sampleEchoReq with
    type := ICMPv6_NEIGHBOR_SOLICIT,
    icmpv6data := ownAddr,
    options := [1, 1, 71, 72, 73, 74, 75, 76, 5, 1, 9, 9, 9, 9, 9, 9] }

/-- A solicitation whose target address differs from the node address. -/
def icmpWrongTarget : Icmpv6Iphdr :=
  { sampleEchoReq with
    type := ICMPv6_NEIGHBOR_SOLICIT,
    icmpv6data := [9, 9, 9, 9, 9, 9, 9, 9],
    options := [1, 1, 71, 72, 73, 74, 75, 76] }

/-- A sample inbound echo reply. -/
def icmpEchoReply : Icmpv6Iphdr :=
  { sampleEchoReq with type := ICMPv6_ECHO_REPLY }

/-- An echo request whose IPv6 source address is the node address itself
while the destination differs. -/
def icmpSpoofedSrc : Icmpv6Iphdr :=
  { sampleEchoReq with
    srcipaddr := ownAddr,
    destipaddr := peerAddr }

/-- A message of the unknown type 200. -/
def icmpUnknown : Icmpv6Iphdr :=
  { sampleEchoReq with type := 200 }

/-- A checksum engine stub used by closed evaluation theorems where the
engine result is irrelevant. -/
def zeroChk (_dev : NetDriver) (_icmp : Icmpv6Iphdr) : Nat := 0

/-- A dispatch stub that leaves the signal unchanged (no waiter claims
the reply). -/
def idDispatch (_dev : NetDriver) (_icmp : Icmpv6Iphdr) (f : Nat) : Nat := f

/-- A dispatch stub that claims the reply (returns a signal different
from the neutral one). -/
def claimDispatch (_dev : NetDriver) (_icmp : Icmpv6Iphdr) (_f : Nat) : Nat := 0

/-! Helper lemmas about the ones-complement checksum model. -/

/-- End-around-carry addition of two 16-bit words stays within 16 bits. -/
theorem addc_le (a b : Nat) (ha : a ≤ 65535) (hb : b ≤ 65535) :
    addc a b ≤ 65535 := by
  simp only [addc]
  split <;> omega

/-- A ones-complement fold of 16-bit words over a 16-bit base stays
within 16 bits. -/
theorem foldr_addc_le (l : List Nat) (t : Nat)
    (hl : ∀ x ∈ l, x ≤ 65535) (ht : t ≤ 65535) :
    List.foldr addc t l ≤ 65535 := by
  induction l with
  | nil => exact ht
  | cons a l ih =>
    exact addc_le a (List.foldr addc t l)
      (hl a (by simp))
      (ih (fun x hx => hl x (by simp [hx])))

/-- The ones-complement sum of 16-bit words is a 16-bit word. -/
theorem onesum_le (ws : List Nat) (h : ∀ w ∈ ws, w ≤ 65535) :
    onesum ws ≤ 65535 :=
  foldr_addc_le ws 0 h (by omega)

/-- End-around-carry addition of 16-bit words commutes past another
addend. -/
theorem addc_left_comm (a w x : Nat)
    (ha : a ≤ 65535) (hw : w ≤ 65535) (hx : x ≤ 65535) :
    addc a (addc w x) = addc w (addc a x) := by
  simp only [addc]
  split_ifs <;> omega

/-- Adding zero in ones-complement arithmetic is the identity on 16-bit
words. -/
theorem addc_zero (t : Nat) (h : t ≤ 65535) : addc 0 t = t := by
  simp only [addc]
  split <;> omega

/-- A 16-bit word folded into the base can be pulled out of a
ones-complement fold of 16-bit words. -/
theorem foldr_addc_pull (pre : List Nat) (w t : Nat)
    (hpre : ∀ x ∈ pre, x ≤ 65535) (hw : w ≤ 65535) (ht : t ≤ 65535) :
    List.foldr addc (addc w t) pre = addc w (List.foldr addc t pre) := by
  induction pre with
  | nil => rfl
  | cons a l ih =>
    have ha : a ≤ 65535 := hpre a (by simp)
    have hl : ∀ x ∈ l, x ≤ 65535 := fun x hx => hpre x (by simp [hx])
    have hfold : List.foldr addc t l ≤ 65535 := foldr_addc_le l t hl ht
    simp only [List.foldr_cons, ih hl, addc_left_comm a w _ ha hw hfold]

/-- Replacing a zero word at an interior position by a 16-bit word w adds
w to the ones-complement sum. -/
theorem onesum_insert (pre post : List Nat) (w : Nat)
    (hpre : ∀ x ∈ pre, x ≤ 65535) (hw : w ≤ 65535)
    (hpost : ∀ x ∈ post, x ≤ 65535) :
    onesum (pre ++ w :: post) = addc w (onesum (pre ++ 0 :: post)) := by
  have ht : List.foldr addc 0 post ≤ 65535 := onesum_le post hpost
  simp only [onesum, List.foldr_append, List.foldr_cons]
  rw [addc_zero (List.foldr addc 0 post) ht]
  exact foldr_addc_pull pre w (List.foldr addc 0 post) hpre hw ht

/-- Writing the complement of the sum-with-zero-field into the field
makes the full ones-complement sum the all-ones word: the checksum
round-trip validates to zero residual. -/
theorem onesum_complement (pre post : List Nat)
    (h : ∀ x ∈ pre ++ 0 :: post, x ≤ 65535) :
    onesum (pre ++ (65535 - onesum (pre ++ 0 :: post)) :: post) = 65535 := by
  have hpre : ∀ x ∈ pre, x ≤ 65535 := fun x hx => h x (by simp [hx])
  have hpost : ∀ x ∈ post, x ≤ 65535 := fun x hx => h x (by simp [hx])
  have hc : onesum (pre ++ 0 :: post) ≤ 65535 := onesum_le _ h
  rw [onesum_insert pre post _ hpre (by omega) hpost]
  simp only [addc]
  split <;> omega

/-! Claim theorems. -/

/-- C9: every invocation of icmpv6_input increments the received counter
by exactly one, whatever the message type, the registry state, the
checksum engine or the dispatch outcome; the increment is unconditional,
so malformed and unsupported messages are counted as received too. -/
theorem C9_recv_always_counted (chk : NetDriver → Icmpv6Iphdr → Nat)
    (dispatch : NetDriver → Icmpv6Iphdr → Nat → Nat) (s : InState) :
    (icmpv6_input chk dispatch s).stats.icmpv6_recv
      = s.stats.icmpv6_recv + 1 := by
  unfold icmpv6_input
  split_ifs <;> simp [emitPath, dropPath, typeerrPath, bumpRecv]

/-- C10: every invocation of icmpv6_input either leaves the declared
buffer length exactly unchanged (emit paths) or sets it to exactly zero
(drop paths); no other value is ever assigned. -/
theorem C10_len_unchanged_or_zero (chk : NetDriver → Icmpv6Iphdr → Nat)
    (dispatch : NetDriver → Icmpv6Iphdr → Nat → Nat) (s : InState) :
    (icmpv6_input chk dispatch s).dev.d_len = s.dev.d_len ∨
      (icmpv6_input chk dispatch s).dev.d_len = 0 := by
  unfold icmpv6_input
  split_ifs <;>
    simp [emitPath, dropPath, typeerrPath, ethSwap, setIpv6] <;>
    split <;> simp

/-- C6: a neighbor solicitation whose target address differs from the
configured node address is dropped: the buffer length becomes 0, the
dropped counter is incremented, and no Neighbor Cache upsert is issued. -/
theorem C6_solicit_target_mismatch (chk : NetDriver → Icmpv6Iphdr → Nat)
    (dispatch : NetDriver → Icmpv6Iphdr → Nat → Nat) (s : InState)
    (ht : s.icmp.type = ICMPv6_NEIGHBOR_SOLICIT)
    (hm : s.icmp.icmpv6data ≠ s.dev.d_ipv6addr) :
    (icmpv6_input chk dispatch s).dev.d_len = 0 ∧
    (icmpv6_input chk dispatch s).stats.icmpv6_drop
      = s.stats.icmpv6_drop + 1 ∧
    (icmpv6_input chk dispatch s).upserts = [] := by
  unfold icmpv6_input
  rw [if_pos ht, if_neg hm]
  simp [dropPath, bumpRecv, setIpv6]

/-- C6 witness: the mismatch theorem applied to the concrete solicitation
icmpWrongTarget. -/
theorem C6_witness :
    (icmpv6_input zeroChk idDispatch (mkIn icmpWrongTarget false)).dev.d_len = 0 ∧
    (icmpv6_input zeroChk idDispatch (mkIn icmpWrongTarget false)).stats.icmpv6_drop
      = (mkIn icmpWrongTarget false).stats.icmpv6_drop + 1 ∧
    (icmpv6_input zeroChk idDispatch (mkIn icmpWrongTarget false)).upserts = [] :=
  C6_solicit_target_mismatch zeroChk idDispatch (mkIn icmpWrongTarget false)
    (by decide) (by decide)

/-- C8: a message whose type is none of Neighbor Solicitation, Echo
Request or Echo Reply increments the type-error counter by 1 and the
dropped counter by 1, zeroes the buffer length, and emits nothing (the
sent counters are unchanged and no upsert or dispatch occurs). -/
theorem C8_unknown_type (chk : NetDriver → Icmpv6Iphdr → Nat)
    (dispatch : NetDriver → Icmpv6Iphdr → Nat → Nat) (s : InState)
    (h1 : s.icmp.type ≠ ICMPv6_NEIGHBOR_SOLICIT)
    (h2 : s.icmp.type ≠ ICMPv6_ECHO_REQUEST)
    (h3 : s.icmp.type ≠ ICMPv6_ECHO_REPLY) :
    (icmpv6_input chk dispatch s).stats.icmpv6_typeerr
      = s.stats.icmpv6_typeerr + 1 ∧
    (icmpv6_input chk dispatch s).stats.icmpv6_drop
      = s.stats.icmpv6_drop + 1 ∧
    (icmpv6_input chk dispatch s).dev.d_len = 0 ∧
    (icmpv6_input chk dispatch s).stats.icmpv6_sent
      = s.stats.icmpv6_sent ∧
    (icmpv6_input chk dispatch s).stats.ip_sent = s.stats.ip_sent ∧
    (icmpv6_input chk dispatch s).upserts = [] ∧
    (icmpv6_input chk dispatch s).dispatches = [] := by
  unfold icmpv6_input
  rw [if_neg h1, if_neg h2, if_neg (by simp [h3])]
  simp [typeerrPath, dropPath, bumpRecv, setIpv6]

/-- C8 witness: the unknown-type theorem applied to the concrete message
of type 200. -/
theorem C8_witness :
    (icmpv6_input zeroChk idDispatch (mkIn icmpUnknown false)).stats.icmpv6_typeerr
      = (mkIn icmpUnknown false).stats.icmpv6_typeerr + 1 ∧
    (icmpv6_input zeroChk idDispatch (mkIn icmpUnknown false)).stats.icmpv6_drop
      = (mkIn icmpUnknown false).stats.icmpv6_drop + 1 ∧
    (icmpv6_input zeroChk idDispatch (mkIn icmpUnknown false)).dev.d_len = 0 ∧
    (icmpv6_input zeroChk idDispatch (mkIn icmpUnknown false)).stats.icmpv6_sent
      = (mkIn icmpUnknown false).stats.icmpv6_sent ∧
    (icmpv6_input zeroChk idDispatch (mkIn icmpUnknown false)).stats.ip_sent
      = (mkIn icmpUnknown false).stats.ip_sent ∧
    (icmpv6_input zeroChk idDispatch (mkIn icmpUnknown false)).upserts = [] ∧
    (icmpv6_input zeroChk idDispatch (mkIn icmpUnknown false)).dispatches = [] :=
  C8_unknown_type zeroChk idDispatch (mkIn icmpUnknown false)
    (by decide) (by decide) (by decide)

/-- C7: an echo reply arriving while the registry is non-empty and
claimed by a waiter (the dispatch result differs from the neutral
unclaimed signal) invokes the registry chain exactly once with the
neutral signal, does not increment the dropped counter, and falls
through to the emit statistics path, incrementing the icmpv6 sent and ip
sent counters although nothing is transmitted. -/
theorem C7_claimed_echo_reply (chk : NetDriver → Icmpv6Iphdr → Nat)
    (dispatch : NetDriver → Icmpv6Iphdr → Nat → Nat) (s : InState)
    (ht : s.icmp.type = ICMPv6_ECHO_REPLY)
    (hg : s.g_echocallback = true)
    (hc : dispatch (setIpv6 s.dev) s.icmp ICMPv6_ECHOREPLY ≠ ICMPv6_ECHOREPLY) :
    (icmpv6_input chk dispatch s).dispatches = [ICMPv6_ECHOREPLY] ∧
    (icmpv6_input chk dispatch s).stats.icmpv6_drop = s.stats.icmpv6_drop ∧
    (icmpv6_input chk dispatch s).stats.icmpv6_sent
      = s.stats.icmpv6_sent + 1 ∧
    (icmpv6_input chk dispatch s).stats.ip_sent = s.stats.ip_sent + 1 := by
  unfold icmpv6_input
  rw [if_neg (by rw [ht]; decide), if_neg (by rw [ht]; decide),
    if_pos (by exact ⟨ht, hg⟩), if_neg hc]
  simp [emitPath, bumpRecv]

/-- C7 witness: the claimed-reply theorem applied to the concrete echo
reply with a claiming dispatch stub. -/
theorem C7_witness :
    (icmpv6_input zeroChk claimDispatch (mkIn icmpEchoReply true)).dispatches
      = [ICMPv6_ECHOREPLY] ∧
    (icmpv6_input zeroChk claimDispatch (mkIn icmpEchoReply true)).stats.icmpv6_drop
      = (mkIn icmpEchoReply true).stats.icmpv6_drop ∧
    (icmpv6_input zeroChk claimDispatch (mkIn icmpEchoReply true)).stats.icmpv6_sent
      = (mkIn icmpEchoReply true).stats.icmpv6_sent + 1 ∧
    (icmpv6_input zeroChk claimDispatch (mkIn icmpEchoReply true)).stats.ip_sent
      = (mkIn icmpEchoReply true).stats.ip_sent + 1 :=
  C7_claimed_echo_reply zeroChk claimDispatch (mkIn icmpEchoReply true)
    (by decide) (by decide) (by decide)

/-- C4 counterexample: for the concrete echo reply icmpEchoReply arriving
with an empty Waiter Registry, the buffer length does become 0 and the
dropped counter is incremented, but the type-error counter is NOT left
unchanged: the empty-registry reply falls into the unsupported-type
branch, which increments it. -/
theorem C4_counterexample :
    (mkIn icmpEchoReply false).icmp.type = ICMPv6_ECHO_REPLY ∧
    (mkIn icmpEchoReply false).g_echocallback = false ∧
    ¬ ((icmpv6_input zeroChk idDispatch (mkIn icmpEchoReply false)).dev.d_len = 0 ∧
       (icmpv6_input zeroChk idDispatch (mkIn icmpEchoReply false)).stats.icmpv6_drop
         = (mkIn icmpEchoReply false).stats.icmpv6_drop + 1 ∧
       (icmpv6_input zeroChk idDispatch (mkIn icmpEchoReply false)).stats.icmpv6_typeerr
         = (mkIn icmpEchoReply false).stats.icmpv6_typeerr) := by
  decide

/-- C4 amended: an echo reply arriving while the Waiter Registry is empty
sets the buffer length to zero, increments the dropped counter by exactly
1 and ALSO increments the type-error counter by exactly 1, because the
g_echocallback test in the else-if chain sends it into the
unsupported-type branch. -/
theorem C4_empty_registry_reply (chk : NetDriver → Icmpv6Iphdr → Nat)
    (dispatch : NetDriver → Icmpv6Iphdr → Nat → Nat) (s : InState)
    (ht : s.icmp.type = ICMPv6_ECHO_REPLY)
    (hg : s.g_echocallback = false) :
    (icmpv6_input chk dispatch s).dev.d_len = 0 ∧
    (icmpv6_input chk dispatch s).stats.icmpv6_drop
      = s.stats.icmpv6_drop + 1 ∧
    (icmpv6_input chk dispatch s).stats.icmpv6_typeerr
      = s.stats.icmpv6_typeerr + 1 := by
  unfold icmpv6_input
  rw [if_neg (by rw [ht]; decide), if_neg (by rw [ht]; decide),
    if_neg (by rw [hg]; simp)]
  simp [typeerrPath, dropPath, bumpRecv, setIpv6]

/-- C4 witness: the amended empty-registry theorem applied to the
concrete echo reply. -/
theorem C4_witness :
    (icmpv6_input zeroChk idDispatch (mkIn icmpEchoReply false)).dev.d_len = 0 ∧
    (icmpv6_input zeroChk idDispatch (mkIn icmpEchoReply false)).stats.icmpv6_drop
      = (mkIn icmpEchoReply false).stats.icmpv6_drop + 1 ∧
    (icmpv6_input zeroChk idDispatch (mkIn icmpEchoReply false)).stats.icmpv6_typeerr
      = (mkIn icmpEchoReply false).stats.icmpv6_typeerr + 1 :=
  C4_empty_registry_reply zeroChk idDispatch (mkIn icmpEchoReply false)
    (by decide) (by decide)

/-- C5 counterexample: for the concrete echo request icmpSpoofedSrc,
whose IPv6 source is the node address itself and whose destination
differs from its source, the handler emits a reply (the sent counter is
incremented and the buffer length stays non-zero) whose source and
destination addresses are equal, although the inbound source and
destination were different: the reply path does not swap src and dst, it
overwrites the source with the node address. -/
theorem C5_counterexample :
    (icmpv6_input zeroChk idDispatch (mkIn icmpSpoofedSrc false)).stats.icmpv6_sent
      = (mkIn icmpSpoofedSrc false).stats.icmpv6_sent + 1 ∧
    (icmpv6_input zeroChk idDispatch (mkIn icmpSpoofedSrc false)).dev.d_len ≠ 0 ∧
    (icmpv6_input zeroChk idDispatch (mkIn icmpSpoofedSrc false)).icmp.srcipaddr
      = (icmpv6_input zeroChk idDispatch (mkIn icmpSpoofedSrc false)).icmp.destipaddr ∧
    (mkIn icmpSpoofedSrc false).icmp.srcipaddr
      ≠ (mkIn icmpSpoofedSrc false).icmp.destipaddr := by
  decide

/-- C5 amended: on both reply-emitting paths (neighbor advertisement and
echo reply) the emitted source and destination addresses are equal only
if the inbound source address equals the configured node address, since
the emitted source is always the node address and the emitted destination
is the inbound source (the inbound destination is discarded, not
swapped). -/
theorem C5_emitted_addresses (chk : NetDriver → Icmpv6Iphdr → Nat)
    (dispatch : NetDriver → Icmpv6Iphdr → Nat → Nat) (s : InState)
    (hemit : (s.icmp.type = ICMPv6_NEIGHBOR_SOLICIT ∧
              s.icmp.icmpv6data = s.dev.d_ipv6addr) ∨
             s.icmp.type = ICMPv6_ECHO_REQUEST)
    (heq : (icmpv6_input chk dispatch s).icmp.srcipaddr
             = (icmpv6_input chk dispatch s).icmp.destipaddr) :
    s.icmp.srcipaddr = s.dev.d_ipv6addr := by
  rcases hemit with ⟨ht, hm⟩ | ht
  · rw [icmpv6_input, if_pos ht, if_pos hm] at heq
    simp [emitPath, neighborAdvertIcmp, setIpv6] at heq
    exact heq.symm
  · have h1 : s.icmp.type ≠ ICMPv6_NEIGHBOR_SOLICIT := by rw [ht]; decide
    rw [icmpv6_input, if_neg h1, if_pos ht] at heq
    simp [emitPath, echoRequestIcmp, setIpv6] at heq
    exact heq.symm

/-- C5 witness: the amended address theorem applied to the concrete
spoofed-source echo request. -/
theorem C5_witness :
    (mkIn icmpSpoofedSrc false).icmp.srcipaddr
      = (mkIn icmpSpoofedSrc false).dev.d_ipv6addr :=
  C5_emitted_addresses zeroChk idDispatch (mkIn icmpSpoofedSrc false)
    (Or.inr (by decide)) (by decide)

/-- C1: evaluation of the handler on the concrete solicitation
icmpBadOption, whose first option declares a length reaching far past the
remaining buffer.  The C code validates only the option type byte, never
the length: the Neighbor Cache upsert is still issued (with the bytes at
options[2..7], which lie beyond the 2 option bytes actually present),
the dropped counter is not incremented and the buffer length is left
non-zero, so the message is emitted rather than rejected as a malformed
option. -/
theorem C1_no_option_bounds_check :
    (icmpv6_input zeroChk idDispatch (mkIn icmpBadOption false)).upserts
      = [(peerAddr, [])] ∧
    (icmpv6_input zeroChk idDispatch (mkIn icmpBadOption false)).stats.icmpv6_drop
      = (mkIn icmpBadOption false).stats.icmpv6_drop ∧
    (icmpv6_input zeroChk idDispatch (mkIn icmpBadOption false)).dev.d_len
      = (mkIn icmpBadOption false).dev.d_len ∧
    (mkIn icmpBadOption false).dev.d_len ≠ 0 := by
  decide

/-- C2 counterexample: for the concrete solicitation icmpTwoOptSolicit,
whose target matches and whose first option is a well-formed
Source-Link-Layer option but which carries a second option behind it, the
emitted advertisement's option region is not a single Target-Link-Layer
option: only the first 8 option bytes are rewritten and the second
option's bytes survive behind them. -/
theorem C2_counterexample :
    (mkIn icmpTwoOptSolicit false).icmp.type = ICMPv6_NEIGHBOR_SOLICIT ∧
    (mkIn icmpTwoOptSolicit false).icmp.icmpv6data
      = (mkIn icmpTwoOptSolicit false).dev.d_ipv6addr ∧
    (mkIn icmpTwoOptSolicit false).icmp.options.getD 0 0
      = ICMPv6_OPTION_SOURCE_LINK_ADDRESS ∧
    (mkIn icmpTwoOptSolicit false).icmp.options.getD 1 0 = 1 ∧
    8 ≤ (mkIn icmpTwoOptSolicit false).icmp.options.length ∧
    ¬ ((icmpv6_input zeroChk idDispatch (mkIn icmpTwoOptSolicit false)).icmp.options
        = ICMPv6_OPTION_TARGET_LINK_ADDRESS :: 1 :: ownMac) := by
  decide

/-- C2 amended: a solicitation whose target matches the node address and
whose first option is a well-formed Source-Link-Layer option produces
exactly one Neighbor Cache upsert with the sender address and the
option's hardware-address bytes, and the buffer is rewritten in place to
a Neighbor Advertisement: type Advertisement, Solicited flag set with all
other flag and reserved bits zero, destination := original source,
source := node address, the FIRST 8 option bytes replaced by a single
Target-Link-Layer option carrying the node hardware address while any
option bytes beyond the first 8 are left unchanged, and the checksum
zeroed first and then set to the ones-complement of the Checksum Engine
result. -/
theorem C2_solicit_with_sll (chk : NetDriver → Icmpv6Iphdr → Nat)
    (dispatch : NetDriver → Icmpv6Iphdr → Nat → Nat) (s : InState)
    (ht : s.icmp.type = ICMPv6_NEIGHBOR_SOLICIT)
    (hm : s.icmp.icmpv6data = s.dev.d_ipv6addr)
    (hopt : s.icmp.options.getD 0 0 = ICMPv6_OPTION_SOURCE_LINK_ADDRESS)
    (hoptlen : s.icmp.options.getD 1 0 = 1)
    (hbuf : 8 ≤ s.icmp.options.length)
    (hmac : s.dev.d_mac.length = 6) :
    (icmpv6_input chk dispatch s).upserts
      = [(s.icmp.srcipaddr, (s.icmp.options.drop 2).take IFHWADDRLEN)] ∧
    (icmpv6_input chk dispatch s).icmp.type = ICMPv6_NEIGHBOR_ADVERTISE ∧
    (icmpv6_input chk dispatch s).icmp.flags = ICMPv6_FLAG_S ∧
    (icmpv6_input chk dispatch s).icmp.reserved1 = 0 ∧
    (icmpv6_input chk dispatch s).icmp.reserved2 = 0 ∧
    (icmpv6_input chk dispatch s).icmp.reserved3 = 0 ∧
    (icmpv6_input chk dispatch s).icmp.destipaddr = s.icmp.srcipaddr ∧
    (icmpv6_input chk dispatch s).icmp.srcipaddr = s.dev.d_ipv6addr ∧
    (icmpv6_input chk dispatch s).icmp.options
      = ICMPv6_OPTION_TARGET_LINK_ADDRESS :: 1 ::
          (s.dev.d_mac ++ s.icmp.options.drop 8) ∧
    (icmpv6_input chk dispatch s).icmp.icmpv6chksum
      = complement16 (chk (setIpv6 s.dev)
          { (icmpv6_input chk dispatch s).icmp with icmpv6chksum := 0 }) := by
  unfold icmpv6_input
  rw [if_pos ht, if_pos hm]
  have htake : s.dev.d_mac.take IFHWADDRLEN = s.dev.d_mac := by
    apply List.take_of_length_le
    rw [hmac]
    decide
  refine ⟨?_, rfl, rfl, rfl, rfl, rfl, rfl, rfl, ?_, rfl⟩
  · simp only [emitPath]
    unfold solicitUpserts
    rw [if_pos hopt]
  · show ICMPv6_OPTION_TARGET_LINK_ADDRESS :: 1 ::
        ((setIpv6 s.dev).d_mac.take IFHWADDRLEN ++
          s.icmp.options.drop (2 + IFHWADDRLEN))
      = ICMPv6_OPTION_TARGET_LINK_ADDRESS :: 1 ::
          (s.dev.d_mac ++ s.icmp.options.drop 8)
    rw [show (setIpv6 s.dev).d_mac = s.dev.d_mac from rfl, htake]
    simp [IFHWADDRLEN]

/-- C2 witness: the amended solicitation theorem applied to the concrete
well-formed solicitation icmpGoodSolicit. -/
theorem C2_witness :
    (icmpv6_input zeroChk idDispatch (mkIn icmpGoodSolicit false)).upserts
      = [((mkIn icmpGoodSolicit false).icmp.srcipaddr,
          ((mkIn icmpGoodSolicit false).icmp.options.drop 2).take IFHWADDRLEN)] ∧
    (icmpv6_input zeroChk idDispatch (mkIn icmpGoodSolicit false)).icmp.type
      = ICMPv6_NEIGHBOR_ADVERTISE ∧
    (icmpv6_input zeroChk idDispatch (mkIn icmpGoodSolicit false)).icmp.flags
      = ICMPv6_FLAG_S ∧
    (icmpv6_input zeroChk idDispatch (mkIn icmpGoodSolicit false)).icmp.reserved1 = 0 ∧
    (icmpv6_input zeroChk idDispatch (mkIn icmpGoodSolicit false)).icmp.reserved2 = 0 ∧
    (icmpv6_input zeroChk idDispatch (mkIn icmpGoodSolicit false)).icmp.reserved3 = 0 ∧
    (icmpv6_input zeroChk idDispatch (mkIn icmpGoodSolicit false)).icmp.destipaddr
      = (mkIn icmpGoodSolicit false).icmp.srcipaddr ∧
    (icmpv6_input zeroChk idDispatch (mkIn icmpGoodSolicit false)).icmp.srcipaddr
      = (mkIn icmpGoodSolicit false).dev.d_ipv6addr ∧
    (icmpv6_input zeroChk idDispatch (mkIn icmpGoodSolicit false)).icmp.options
      = ICMPv6_OPTION_TARGET_LINK_ADDRESS :: 1 ::
          ((mkIn icmpGoodSolicit false).dev.d_mac ++
            (mkIn icmpGoodSolicit false).icmp.options.drop 8) ∧
    (icmpv6_input zeroChk idDispatch (mkIn icmpGoodSolicit false)).icmp.icmpv6chksum
      = complement16 (zeroChk (setIpv6 (mkIn icmpGoodSolicit false).dev)
          { (icmpv6_input zeroChk idDispatch (mkIn icmpGoodSolicit false)).icmp with
              icmpv6chksum := 0 }) :=
  C2_solicit_with_sll zeroChk idDispatch (mkIn icmpGoodSolicit false)
    (by decide) (by decide) (by decide) (by decide) (by decide) (by decide)

/-- C3: an echo request is rewritten in place into an echo reply with the
identifier, sequence number and payload words unmodified, the destination
set to the original source, the source set to the node address, and the
checksum recomputed with the spec-modelled Checksum Engine so that the
ones-complement sum over all 16-bit words of pseudo-header plus message,
checksum field included, is the all-ones word (zero residual).  The
bounds hypotheses state that the 16-bit fields of the packet and the
configured address are in range, which holds for any real buffer. -/
theorem C3_echo_request_reply (dispatch : NetDriver → Icmpv6Iphdr → Nat → Nat)
    (s : InState)
    (ht : s.icmp.type = ICMPv6_ECHO_REQUEST)
    (hsrc : ∀ w ∈ s.icmp.srcipaddr, w ≤ 65535)
    (hown : ∀ w ∈ s.dev.d_ipv6addr, w ≤ 65535)
    (hlen : s.icmp.len ≤ 65535)
    (hcode : s.icmp.code ≤ 255)
    (hid : s.icmp.echoId ≤ 65535)
    (hseq : s.icmp.echoSeqno ≤ 65535)
    (hpl : ∀ w ∈ s.icmp.echoPayload, w ≤ 65535) :
    (icmpv6_input specChksum dispatch s).icmp.type = ICMPv6_ECHO_REPLY ∧
    (icmpv6_input specChksum dispatch s).icmp.echoId = s.icmp.echoId ∧
    (icmpv6_input specChksum dispatch s).icmp.echoSeqno = s.icmp.echoSeqno ∧
    (icmpv6_input specChksum dispatch s).icmp.echoPayload = s.icmp.echoPayload ∧
    (icmpv6_input specChksum dispatch s).icmp.destipaddr = s.icmp.srcipaddr ∧
    (icmpv6_input specChksum dispatch s).icmp.srcipaddr = s.dev.d_ipv6addr ∧
    (icmpv6_input specChksum dispatch s).dev.d_len = s.dev.d_len ∧
    onesum (echoWords (icmpv6_input specChksum dispatch s).icmp) = 65535 := by
  unfold icmpv6_input
  rw [if_neg (by rw [ht]; decide), if_pos ht]
  refine ⟨rfl, rfl, rfl, rfl, rfl, rfl, rfl, ?_⟩
  have hb : ∀ x ∈ (s.dev.d_ipv6addr ++ s.icmp.srcipaddr ++
      [s.icmp.len, 58, ICMPv6_ECHO_REPLY * 256 + s.icmp.code]) ++
      0 :: s.icmp.echoId :: s.icmp.echoSeqno :: s.icmp.echoPayload,
      x ≤ 65535 := by
    intro x hx
    simp only [List.mem_append, List.mem_cons] at hx
    rcases hx with ((h | h) | h) | h
    · exact hown x h
    · exact hsrc x h
    · rcases h with h | h | h | h
      · omega
      · omega
      · rw [h]; unfold ICMPv6_ECHO_REPLY; omega
      · simp at h
    · rcases h with h | h | h | h
      · omega
      · omega
      · omega
      · exact hpl x h
  have hc : onesum ((s.dev.d_ipv6addr ++ s.icmp.srcipaddr ++
      [s.icmp.len, 58, ICMPv6_ECHO_REPLY * 256 + s.icmp.code]) ++
      0 :: s.icmp.echoId :: s.icmp.echoSeqno :: s.icmp.echoPayload) ≤ 65535 :=
    onesum_le _ hb
  show onesum ((s.dev.d_ipv6addr ++ s.icmp.srcipaddr ++
      [s.icmp.len, 58, ICMPv6_ECHO_REPLY * 256 + s.icmp.code]) ++
      complement16 (onesum ((s.dev.d_ipv6addr ++ s.icmp.srcipaddr ++
        [s.icmp.len, 58, ICMPv6_ECHO_REPLY * 256 + s.icmp.code]) ++
        0 :: s.icmp.echoId :: s.icmp.echoSeqno :: s.icmp.echoPayload)) ::
      s.icmp.echoId :: s.icmp.echoSeqno :: s.icmp.echoPayload) = 65535
  rw [show complement16 (onesum ((s.dev.d_ipv6addr ++ s.icmp.srcipaddr ++
      [s.icmp.len, 58, ICMPv6_ECHO_REPLY * 256 + s.icmp.code]) ++
      0 :: s.icmp.echoId :: s.icmp.echoSeqno :: s.icmp.echoPayload))
    = 65535 - onesum ((s.dev.d_ipv6addr ++ s.icmp.srcipaddr ++
      [s.icmp.len, 58, ICMPv6_ECHO_REPLY * 256 + s.icmp.code]) ++
      0 :: s.icmp.echoId :: s.icmp.echoSeqno :: s.icmp.echoPayload) by
      unfold complement16
      rw [Nat.mod_eq_of_lt (by omega)]]
  exact onesum_complement _ _ hb

/-- C3 witness: the echo theorem applied to the concrete request
sampleEchoReq, confirming in particular that the concrete rewritten
reply checksums to the all-ones word. -/
theorem C3_witness :
    (icmpv6_input specChksum idDispatch (mkIn sampleEchoReq false)).icmp.type
      = ICMPv6_ECHO_REPLY ∧
    (icmpv6_input specChksum idDispatch (mkIn sampleEchoReq false)).icmp.echoId
      = (mkIn sampleEchoReq false).icmp.echoId ∧
    (icmpv6_input specChksum idDispatch (mkIn sampleEchoReq false)).icmp.echoSeqno
      = (mkIn sampleEchoReq false).icmp.echoSeqno ∧
    (icmpv6_input specChksum idDispatch (mkIn sampleEchoReq false)).icmp.echoPayload
      = (mkIn sampleEchoReq false).icmp.echoPayload ∧
    (icmpv6_input specChksum idDispatch (mkIn sampleEchoReq false)).icmp.destipaddr
      = (mkIn sampleEchoReq false).icmp.srcipaddr ∧
    (icmpv6_input specChksum idDispatch (mkIn sampleEchoReq false)).icmp.srcipaddr
      = (mkIn sampleEchoReq false).dev.d_ipv6addr ∧
    (icmpv6_input specChksum idDispatch (mkIn sampleEchoReq false)).dev.d_len
      = (mkIn sampleEchoReq false).dev.d_len ∧
    onesum (echoWords (icmpv6_input specChksum idDispatch
      (mkIn sampleEchoReq false)).icmp) = 65535 :=
  C3_echo_request_reply idDispatch (mkIn sampleEchoReq false)
    (by decide) (by decide) (by decide) (by decide) (by decide) (by decide)
    (by decide) (by decide)
